import Mathlib

/-!
Shallow embedding of the Trip Lifecycle & Settlement Core of the
online-taxi-project backend (src/src/app).

Modelling conventions:
* Relational rows become Lean structures; each table is a `List` of rows
  inside a `DB` record.  `deleted_at IS NULL` soft-delete markers become a
  `deleted : Bool` field; a SQL filter `deleted_at IS NULL` becomes
  `!r.deleted`, and a query without that filter omits the test, exactly as
  in the corresponding SQL text.
* `Decimal` money amounts become `ℚ` (decimal arithmetic is exact, so the
  embedding is faithful); `SERIAL` primary keys are allocated from
  `nextTripId` / `nextPaymentId` / `nextTxnId` counters.
* `CURRENT_TIMESTAMP` / `datetime.now()` become an explicit `now : Nat`
  argument where a claim mentions the stored time; `created_at` and
  `updated_at` bookkeeping columns are omitted (no claim concerns them).
* `HTTPException(status_code, detail)` becomes the `HTTPError` structure;
  fallible operations return `Except HTTPError`.
* psycopg runs every statement of a request on one connection with
  autocommit off.  `TransactionService.create_transaction` brackets its own
  work in BEGIN/COMMIT/ROLLBACK, so it is modelled as an atomic step that
  either returns the updated database or an error with the database
  unchanged.  `TransactionService.process_trip_payment` also opens a BEGIN
  and rolls back on failure, but the helpers it calls commit for
  themselves: `PaymentService.create_payment` ends with `db.commit()` and
  each `create_transaction` ends with COMMIT, so by the time the outer
  exception handler runs its ROLLBACK there is no open transaction left to
  undo.  The model therefore threads the committed state through each
  sub-call and, on failure, returns the error together with the state
  committed so far — exactly the durable state the database retains.
* Geographic columns, routes, tariffs and the haversine computation are
  omitted: no claim below depends on them (the fare-estimation claim is
  about the `available_drivers` COUNT query only, which is embedded in
  full).
-/

deriving instance DecidableEq for Except

namespace OnlineTaxi

/-- A row of the `trips` table (columns that the verified operations touch). -/
structure Trip where
  id : Nat
  passenger_id : Nat
  driver_id : Option Nat
  trip_status : String
  payment_id : Option Nat
  start_time : Option Nat
  end_time : Option Nat
  deleted : Bool
deriving DecidableEq, Repr

/-- A row of the `drivers` table. -/
structure Driver where
  user_id : Nat
  approval_status : String
  deleted : Bool
deriving DecidableEq, Repr

/-- A row of the `users` table (the wallet owner). -/
structure User where
  id : Nat
  wallet_balance : ℚ
  deleted : Bool
deriving DecidableEq, Repr

/-- A row of the `transactions` ledger table. -/
structure Txn where
  id : Nat
  user_id : Nat
  amount : ℚ
  type : String
  payment_id : Option Nat
deriving DecidableEq, Repr

/-- A row of the `payments` table. -/
structure Payment where
  id : Nat
  amount : ℚ
  payment_type : String
  status : String
  deleted : Bool
deriving DecidableEq, Repr

/-- The persistent store. -/
structure DB where
  trips : List Trip
  drivers : List Driver
  users : List User
  transactions : List Txn
  payments : List Payment
  nextTripId : Nat
  nextPaymentId : Nat
  nextTxnId : Nat
deriving DecidableEq, Repr

/-- `fastapi.HTTPException` as raised by the services. -/
structure HTTPError where
  status_code : Nat
  detail : String
deriving DecidableEq, Repr

/-- The error raised by the wallet-balance check
(`HTTPException(status_code=400, detail="Insufficient wallet balance")`). -/
def insufficientFunds : HTTPError := ⟨400, "Insufficient wallet balance"⟩

/-- Pydantic schema `TransactionCreate` (user_id, amount ≠ 0, type, payment_id). -/
structure TransactionCreate where
  user_id : Nat
  amount : ℚ
  type : String
  payment_id : Option Nat := none
deriving DecidableEq, Repr

/-- `SELECT wallet_balance FROM users WHERE id = %s` — note: this query in
`TransactionService.create_transaction` has no `deleted_at` filter. -/
def findUser (db : DB) (uid : Nat) : Option User :=
  db.users.find? fun u => u.id == uid

/-- `TransactionService.create_transaction` (payment_service.py lines 107-179):
one BEGIN/COMMIT unit that checks existence, checks the balance for types
`withdraw` and `trip_payment` (note: for **any** sign of the amount), inserts
the ledger row and writes the cached balance; any failure rolls the whole
unit back, which the `Except` return models (the error case carries no new
state). -/
def create_transaction (db : DB) (td : TransactionCreate) :
    Except HTTPError (Txn × DB) :=
  match findUser db td.user_id with
  | none => .error ⟨404, "User not found"⟩
  | some u =>
    if (td.type = "withdraw" ∨ td.type = "trip_payment") ∧
        u.wallet_balance < abs td.amount then
      .error insufficientFunds
    else
      let txn : Txn :=
        ⟨db.nextTxnId, td.user_id, td.amount, td.type, td.payment_id⟩
      let newBalance := u.wallet_balance + td.amount
      .ok (txn,
        { db with
          transactions := db.transactions ++ [txn]
          users := db.users.map fun v =>
            if v.id == td.user_id then { v with wallet_balance := newBalance }
            else v
          nextTxnId := db.nextTxnId + 1 })

/-- `TransactionService.get_wallet_balance`:
`SELECT wallet_balance FROM users WHERE id = %s AND deleted_at IS NULL`. -/
def get_wallet_balance (db : DB) (uid : Nat) : Option ℚ :=
  (db.users.find? fun u => u.id == uid && !u.deleted).map User.wallet_balance

/-- Sum of the ledger amounts recorded for one user. -/
def txnSum (txns : List Txn) (uid : Nat) : ℚ :=
  ((txns.filter fun tx => tx.user_id == uid).map Txn.amount).sum

/-- The wallet/ledger consistency invariant: user ids are unique (the
`users.id` primary key) and every cached `wallet_balance` equals the sum of
that user's ledger rows. -/
def Balanced (db : DB) : Prop :=
  (db.users.map User.id).Nodup ∧
    ∀ u ∈ db.users, u.wallet_balance = txnSum db.transactions u.id

/-- A sequence of `create_transaction` calls; a failed call leaves the
store unchanged (its unit rolled back), a successful one installs the new
state. -/
def postAll (db : DB) (tds : List TransactionCreate) : DB :=
  tds.foldl
    (fun s td =>
      match create_transaction s td with
      | .ok (_, s') => s'
      | .error _ => s)
    db

/-- `PaymentService.create_payment`: inserts a payment row with
status `"pending"` and then runs `db.commit()` — the row is durable as soon
as this returns, which is why the model has no failure path and returns the
new state unconditionally. -/
def create_payment (db : DB) (amount : ℚ) (payment_type : String) :
    Payment × DB :=
  let p : Payment := ⟨db.nextPaymentId, amount, payment_type, "pending", false⟩
  (p, { db with
        payments := db.payments ++ [p]
        nextPaymentId := db.nextPaymentId + 1 })

/-- `PaymentService.update_payment_status`:
`UPDATE payments SET status = %s WHERE id = %s AND deleted_at IS NULL`. -/
def update_payment_status (db : DB) (pid : Nat) (status : String) : DB :=
  { db with
    payments := db.payments.map fun p =>
      if p.id == pid && !p.deleted then { p with status := status } else p }

/-- `SELECT passenger_id, driver_id FROM trips WHERE id = %s AND deleted_at
IS NULL` (the lookup at the top of `process_trip_payment`). -/
def findTrip (db : DB) (tid : Nat) : Option Trip :=
  db.trips.find? fun t => t.id == tid && !t.deleted

/-- `UPDATE trips SET payment_id = %s, updated_at = %s WHERE id = %s`
(process_trip_payment, lines 301-307 — no `deleted_at` filter here). -/
def setTripPayment (db : DB) (tid pid : Nat) : DB :=
  { db with
    trips := db.trips.map fun t =>
      if t.id == tid then { t with payment_id := some pid } else t }

/-- The value returned by `process_trip_payment` on success (the `payment`
entry is the record created up front, i.e. still carrying status
`"pending"`, exactly as the Python dict does). -/
structure SettleResult where
  payment : Payment
  passenger_amount : ℚ
  driver_amount : ℚ
  platform_fee : ℚ
deriving DecidableEq, Repr

/-- The tail of `process_trip_payment` once both transfers have gone
through: attach `payment_id` to the trip row, mark the payment
`"completed"` (these two statements are committed together), and build the
returned summary (whose `payment` entry is still the dict created up
front). -/
def settleFinish (db : DB) (tid : Nat) (payment : Payment)
    (amount driver_amount : ℚ) (driverTruthy : Bool) :
    Except HTTPError SettleResult × DB :=
  let db3 := setTripPayment db tid payment.id
  let db4 := update_payment_status db3 payment.id ("completed")
  (.ok ⟨payment, -amount,
        if driverTruthy then driver_amount else 0,
        if driverTruthy then amount - driver_amount else amount⟩, db4)

/-- `TransactionService.process_trip_payment` (payment_service.py lines
254-325).  The commit boundaries follow the source: the payment insert is
committed by `create_payment` itself, each ledger transfer is committed by
`create_transaction` itself, and the trailing trip/payment updates are
committed together by `update_payment_status`'s `db.commit()`; the
enclosing BEGIN/ROLLBACK in `process_trip_payment` therefore cannot undo a
sub-call that already returned, so on failure the state committed so far is
returned beside the error.  `if driver_id:` is Python truthiness: the
driver credit is skipped when `driver_id` is `None` or `0`. -/
def process_trip_payment (db : DB) (tid : Nat) (amount : ℚ) :
    Except HTTPError SettleResult × DB :=
  match findTrip db tid with
  | none => (.error ⟨404, "Trip not found"⟩, db)
  | some trip =>
    let payment := (create_payment db amount ("electronic")).1
    let db1 := (create_payment db amount ("electronic")).2
    match create_transaction db1
        ⟨trip.passenger_id, -amount, "trip_payment", some payment.id⟩ with
    | .error e => (.error e, db1)
    | .ok (_, db2) =>
      match trip.driver_id with
      | some d =>
        if d ≠ 0 then
          match create_transaction db2
              ⟨d, amount * (85 / 100 : ℚ), "trip_payment", some payment.id⟩ with
          | .error e => (.error e, db2)
          | .ok (_, db3) =>
            settleFinish db3 tid payment amount (amount * (85 / 100 : ℚ)) true
        else settleFinish db2 tid payment amount (amount * (85 / 100 : ℚ)) false
      | none => settleFinish db2 tid payment amount (amount * (85 / 100 : ℚ)) false

/-- Pydantic schema `TripCreate` (the fields `create_trip` reads). -/
structure TripCreate where
  passenger_id : Nat
  driver_id : Option Nat := none
deriving DecidableEq, Repr

/-- `TripService.create_trip`: checks the passenger exists (`SELECT id FROM
users WHERE id = %s`, no deleted filter) and inserts a trip with status
`"pending"` and the driver id taken from the payload. -/
def create_trip (db : DB) (td : TripCreate) : Except HTTPError (Trip × DB) :=
  match findUser db td.passenger_id with
  | none => .error ⟨404, "Passenger not found"⟩
  | some _ =>
    let t : Trip :=
      ⟨db.nextTripId, td.passenger_id, td.driver_id, "pending",
        none, none, none, false⟩
    .ok (t, { db with trips := db.trips ++ [t], nextTripId := db.nextTripId + 1 })

/-- `SELECT ... FROM trips WHERE id = %s AND deleted_at IS NULL` — the read
used by `get_trip_by_id` and by the availability check of `accept_trip`. -/
def get_trip_by_id (db : DB) (tid : Nat) : Option Trip :=
  db.trips.find? fun t => t.id == tid && !t.deleted

/-- The read-and-check phase of `TripService.accept_trip` (lines 472-488):
fetch the trip (`deleted_at IS NULL`), then require
`trip_status = 'pending'` and `driver_id IS NULL`; on any failure the
function returns `None` without writing. -/
def accept_trip_check (db : DB) (tid : Nat) : Bool :=
  match get_trip_by_id db tid with
  | none => false
  | some t => t.trip_status == "pending" && t.driver_id == none

/-- The write phase of `TripService.accept_trip` (lines 490-503):
`UPDATE trips SET driver_id = %s, trip_status = 'accepted', updated_at =
CURRENT_TIMESTAMP WHERE id = %s RETURNING ...` — the WHERE clause repeats
**no** part of the checked condition (neither `trip_status = 'pending'` nor
`driver_id IS NULL`), so the write is unconditional on everything but the
id. -/
def accept_trip_write (db : DB) (tid did : Nat) : DB :=
  { db with
    trips := db.trips.map fun t =>
      if t.id == tid then
        { t with driver_id := some did, trip_status := "accepted" }
      else t }

/-- `TripService.accept_trip`: check phase then write phase; the returned
row is the one produced by RETURNING. -/
def accept_trip (db : DB) (tid did : Nat) : Option Trip × DB :=
  if accept_trip_check db tid then
    let db' := accept_trip_write db tid did
    (db'.trips.find? fun t => t.id == tid, db')
  else (none, db)

/-- `TripService.start_trip`: one conditional update
`UPDATE trips SET trip_status = 'in_progress', start_time =
CURRENT_TIMESTAMP ... WHERE id = %s AND driver_id = %s AND trip_status =
'accepted' RETURNING ...` (no `deleted_at` filter); zero rows matched means
`None` and no state change. -/
def start_trip (db : DB) (tid did now : Nat) : Option Trip × DB :=
  let guard := fun t : Trip =>
    t.id == tid && t.driver_id == some did && t.trip_status == "accepted"
  match db.trips.find? guard with
  | none => (none, db)
  | some t =>
    let t' := { t with trip_status := "in_progress", start_time := some now }
    (some t',
      { db with
        trips := db.trips.map fun u => if guard u then
          { u with trip_status := "in_progress", start_time := some now }
        else u })

/-- `TripService.complete_trip` (lines 593-645): one conditional update
`UPDATE trips SET trip_status = 'completed', end_time = CURRENT_TIMESTAMP
... WHERE id = %s AND driver_id = %s AND trip_status = 'in_progress'
RETURNING ...`.  This is the **whole** operation: nothing in it (nor in the
`/trips/{trip_id}/complete` endpoint that calls it, routers/driver/api.py
lines 105-116) touches payments, transactions or wallet balances. -/
def complete_trip (db : DB) (tid did now : Nat) : Option Trip × DB :=
  let guard := fun t : Trip =>
    t.id == tid && t.driver_id == some did && t.trip_status == "in_progress"
  match db.trips.find? guard with
  | none => (none, db)
  | some t =>
    let t' := { t with trip_status := "completed", end_time := some now }
    (some t',
      { db with
        trips := db.trips.map fun u => if guard u then
          { u with trip_status := "completed", end_time := some now }
        else u })

/-- `TripService.cancel_trip`: one conditional update guarded by
`id = %s AND driver_id = %s AND trip_status IN ('accepted', 'in_progress')`,
writing the literal `'cancelled'`. -/
def cancel_trip (db : DB) (tid did : Nat) : Option Trip × DB :=
  let guard := fun t : Trip =>
    t.id == tid && t.driver_id == some did &&
      (t.trip_status == "accepted" || t.trip_status == "in_progress")
  match db.trips.find? guard with
  | none => (none, db)
  | some t =>
    let t' := { t with trip_status := "cancelled" }
    (some t',
      { db with
        trips := db.trips.map fun u => if guard u then
          { u with trip_status := "cancelled" }
        else u })

/-- `TripService.assign_driver_to_trip` (lines 308-351).  Three steps:
driver must be `approved` and not soft-deleted (else
`HTTPException(400, "Driver not available")`); the driver must hold no
non-deleted trip with `trip_status IN ('pending', 'started', 'waiting')`
(else `HTTPException(400, "Driver is already on another trip")`); then
`UPDATE trips SET driver_id = %s ... WHERE id = %s AND trip_status =
'pending' AND deleted_at IS NULL`, returning `rowcount > 0`.  Note the
UPDATE guard does **not** require `driver_id IS NULL`. -/
def assign_driver_to_trip (db : DB) (tid did : Nat) :
    Except HTTPError (Bool × DB) :=
  match db.drivers.find? (fun d =>
      d.user_id == did && d.approval_status == "approved" && !d.deleted) with
  | none => .error ⟨400, "Driver not available"⟩
  | some _ =>
    if db.trips.any (fun t =>
        t.driver_id == some did &&
          (t.trip_status == "pending" || t.trip_status == "started" ||
            t.trip_status == "waiting") &&
          !t.deleted) then
      .error ⟨400, "Driver is already on another trip"⟩
    else
      let guard := fun t : Trip =>
        t.id == tid && t.trip_status == "pending" && !t.deleted
      (.ok (db.trips.any guard,
        { db with
          trips := db.trips.map fun t =>
            if guard t then { t with driver_id := some did } else t }))

/-- Pydantic schema `TripUpdate`: every field optional; `None` means "do
not touch this column". -/
structure TripUpdate where
  driver_id : Option Nat := none
  trip_status : Option String := none
  start_time : Option Nat := none
  end_time : Option Nat := none
  payment_id : Option Nat := none
deriving DecidableEq, Repr

/-- The SET clause built by `update_trip`: each field present in the
payload overwrites the column. -/
def applyTripUpdate (td : TripUpdate) (t : Trip) : Trip :=
  let t := match td.driver_id with
    | some d => { t with driver_id := some d }
    | none => t
  let t := match td.trip_status with
    | some s => { t with trip_status := s }
    | none => t
  let t := match td.start_time with
    | some s => { t with start_time := some s }
    | none => t
  let t := match td.end_time with
    | some e => { t with end_time := some e }
    | none => t
  match td.payment_id with
  | some p => { t with payment_id := some p }
  | none => t

/-- `TripService.update_trip` (lines 125-174): with an empty payload it
just reads the trip; otherwise it runs
`UPDATE trips SET <fields> WHERE id = %s AND deleted_at IS NULL` — the only
conditions are the id and the soft-delete filter, so any supplied field
(including `driver_id`) overwrites the current value unconditionally;
`rowcount = 0` yields `None`. -/
def update_trip (db : DB) (tid : Nat) (td : TripUpdate) : Option Trip × DB :=
  if td.driver_id = none ∧ td.trip_status = none ∧ td.start_time = none ∧
      td.end_time = none ∧ td.payment_id = none then
    (get_trip_by_id db tid, db)
  else
    let guard := fun t : Trip => t.id == tid && !t.deleted
    if db.trips.any guard then
      let trips' := db.trips.map fun t => if guard t then applyTripUpdate td t else t
      (trips'.find? fun t => t.id == tid && !t.deleted, { db with trips := trips' })
    else (none, db)

/-- The subquery of the availability count in `TripService.estimate_trip`:
`SELECT driver_id FROM trips WHERE trip_status IN ('pending', 'started',
'waiting') AND driver_id IS NOT NULL` — note the literal `'started'` (and
no `'in_progress'`, and no `deleted_at` filter). -/
def busyDriverIds (db : DB) : List Nat :=
  db.trips.filterMap fun t =>
    if t.trip_status == "pending" || t.trip_status == "started" ||
        t.trip_status == "waiting" then
      t.driver_id
    else none

/-- The `available_drivers` COUNT of `TripService.estimate_trip` (lines
257-271): approved, non-deleted drivers whose user id is not in
`busyDriverIds`. -/
def available_drivers (db : DB) : Nat :=
  (db.drivers.filter fun d =>
    d.approval_status == "approved" && !d.deleted &&
      !(busyDriverIds db).contains d.user_id).length

/-- The `TripStatus` Literal type of src/src/app/types.py line 18, which is
the declared type of `TripResponse.trip_status` (schemas/trip.py line 112);
pydantic rejects any other string when `TripResponse(**trip)` is built. -/
def tripStatusLiterals : List String :=
  ["pending", "completed", "canceled", "started", "waiting", "failed"]

/-- Two drivers racing to accept the same trip, in the interleaving where
both SELECT-and-check phases run before either UPDATE commits.  Under
PostgreSQL's default READ COMMITTED isolation both SELECTs see the original
pending, driverless row; the second UPDATE (`WHERE id = %s` only) waits for
the first to commit and then still matches, so both sessions reach their
RETURNING row and commit.  Returned: each session's result row and the
final store. -/
def accept_trip_race (db : DB) (tid d1 d2 : Nat) :
    Option Trip × Option Trip × DB :=
  let ok1 := accept_trip_check db tid
  let ok2 := accept_trip_check db tid
  let db1 := if ok1 then accept_trip_write db tid d1 else db
  let r1 := if ok1 then db1.trips.find? (fun t => t.id == tid) else none
  let db2 := if ok2 then accept_trip_write db1 tid d2 else db1
  let r2 := if ok2 then db2.trips.find? (fun t => t.id == tid) else none
  (r1, r2, db2)

/-! Concrete stores used to settle individual claims. -/

/-- One in-progress trip (id 1, passenger 1, driver 5), both wallets at 0,
no payments and no ledger rows. -/
def dbC1 : DB :=
  ⟨[⟨1, 1, some 5, "in_progress", none, some 3, none, false⟩], [],
    [⟨1, 0, false⟩, ⟨5, 0, false⟩], [], [], 2, 10, 20⟩

/-- One in-progress trip (id 1, passenger 1, driver 2); the passenger's
wallet is empty, so the settlement debit must fail. -/
def dbC2 : DB :=
  ⟨[⟨1, 1, some 2, "in_progress", none, some 3, none, false⟩], [],
    [⟨1, 0, false⟩, ⟨2, 0, false⟩], [], [], 2, 10, 20⟩

/-- Driver 5 is `rejected` and already holds trip 1 in status `accepted`;
trip 2 is pending and driverless. -/
def dbC3 : DB :=
  ⟨[⟨1, 2, some 5, "accepted", none, none, none, false⟩,
    ⟨2, 3, none, "pending", none, none, none, false⟩],
    [⟨5, "rejected", false⟩], [], [], [], 3, 10, 20⟩

/-- A single pending, driverless trip for the two-driver race. -/
def dbC4 : DB :=
  ⟨[⟨1, 1, none, "pending", none, none, none, false⟩], [], [], [], [], 2, 10, 20⟩

/-- Trip 1 already has driver 5 (status `accepted`). -/
def dbC5 : DB :=
  ⟨[⟨1, 1, some 5, "accepted", none, none, none, false⟩], [], [], [], [], 2, 10, 20⟩

/-- User 7 exists with an empty wallet. -/
def dbC7 : DB := ⟨[], [], [⟨7, 0, false⟩], [], [], 1, 10, 20⟩

/-- One approved driver (user 5) who is currently on an in-progress trip. -/
def dbC9 : DB :=
  ⟨[⟨1, 1, some 5, "in_progress", none, some 3, none, false⟩],
    [⟨5, "approved", false⟩], [], [], [], 2, 10, 20⟩

/-- Three trips: a pending driverless one, an accepted one held by driver 5
and an in-progress one held by driver 5 (statuses as the lifecycle
operations write them). -/
def dbC10 : DB :=
  ⟨[⟨1, 1, none, "pending", none, none, none, false⟩,
    ⟨2, 1, some 5, "accepted", none, none, none, false⟩,
    ⟨3, 1, some 5, "in_progress", none, some 3, none, false⟩],
    [], [], [], [], 4, 10, 20⟩

/-- C1: completing an in-progress trip through the driver endpoint (which
calls `TripService.complete_trip` and nothing else) marks the trip
completed with an end time but performs no settlement whatsoever: no
payment row is created, no ledger row is written, no wallet balance moves
and `payment_id` stays NULL — against the claim that completion and the
PaymentSettlement money movement happen as one all-or-nothing unit. -/
theorem complete_trip_performs_no_settlement :
    (complete_trip dbC1 1 5 9).1 =
      some ⟨1, 1, some 5, "completed", none, some 3, some 9, false⟩ ∧
    (complete_trip dbC1 1 5 9).2.payments = [] ∧
    (complete_trip dbC1 1 5 9).2.transactions = [] ∧
    (complete_trip dbC1 1 5 9).2.users = dbC1.users := by decide

/-- C2: when `process_trip_payment` fails at the passenger debit
(`InsufficientFunds`), the payment row created up front survives in status
`"pending"` — the nested commits of `create_payment` defeat the enclosing
rollback — against the claim that the whole operation rolls back leaving no
payment row.  Balances, ledger and the trip row are indeed unchanged. -/
theorem failed_settlement_leaves_pending_payment :
    (process_trip_payment dbC2 1 500).1 = Except.error insufficientFunds ∧
    (process_trip_payment dbC2 1 500).2.payments =
      [⟨10, 500, "electronic", "pending", false⟩] ∧
    (process_trip_payment dbC2 1 500).2.transactions = [] ∧
    (process_trip_payment dbC2 1 500).2.users = dbC2.users ∧
    (process_trip_payment dbC2 1 500).2.trips = dbC2.trips := by decide

/-- C3 counterexample: driver 5 is not approved and already holds a trip in
status `accepted`, yet `accept_trip` hands them trip 2 — the accept path
checks nothing about the driver, and the claimed active-status set
{pending, accepted, in_progress, waiting} matches neither path. -/
theorem accept_ignores_driver_state :
    ((dbC3.drivers.find? fun d => d.user_id == 5).map Driver.approval_status =
      some ("rejected")) ∧
    (∃ t ∈ dbC3.trips, t.driver_id = some 5 ∧ t.trip_status = "accepted") ∧
    ((accept_trip dbC3 2 5).1.map Trip.driver_id = some (some 5)) ∧
    ((accept_trip dbC3 2 5).1.map Trip.trip_status = some ("accepted")) := by
  decide

/-- C4: in the interleaving where both drivers' availability checks read
the trip before either UPDATE commits (possible under READ COMMITTED, since
the UPDATE of `accept_trip` is guarded only by the trip id), both accepts
reach their RETURNING row — both report success — and the second write
silently replaces driver 5 by driver 6, against the claim that exactly one
attempt succeeds. -/
theorem concurrent_accepts_both_succeed :
    (accept_trip_race dbC4 1 5 6).1.isSome = true ∧
    (accept_trip_race dbC4 1 5 6).2.1.isSome = true ∧
    ((accept_trip_race dbC4 1 5 6).2.2.trips.map Trip.driver_id = [some 6]) := by
  decide

/-- C5 counterexample: trip 1 already carries driver 5, yet `update_trip`
with a payload containing `driver_id = 6` succeeds and replaces the driver
— `UPDATE trips SET driver_id = %s WHERE id = %s AND deleted_at IS NULL`
re-assigns `driver_id` without any null guard. -/
theorem update_trip_replaces_driver :
    (dbC5.trips.map Trip.driver_id = [some 5]) ∧
    ((update_trip dbC5 1 { driver_id := some 6 }).1.map Trip.driver_id =
      some (some 6)) ∧
    ((update_trip dbC5 1 { driver_id := some 6 }).2.trips.map Trip.driver_id =
      [some 6]) := by decide

/-- C7 counterexample: a `trip_payment` ledger entry with positive amount
+425 — a credit — is rejected with `InsufficientFunds` for a user whose
balance is 0, because the balance check fires for the `trip_payment` type
regardless of the amount's sign; the claim says a credit never fails for
insufficiency. -/
theorem positive_trip_payment_credit_rejected :
    (0 : ℚ) < 425 ∧
    create_transaction dbC7 ⟨7, 425, "trip_payment", none⟩ =
      Except.error insufficientFunds := by decide

/-- C9: driver 5 is approved, not deleted, and currently on a trip in
status `in_progress`, yet the `available_drivers` count of `estimate_trip`
still counts them (result 1, the claim demands 0): the busy-driver
subquery filters statuses ('pending', 'started', 'waiting'), and
`'started'` is a status no lifecycle operation ever writes, while
`'in_progress'` — which `start_trip` does write — is not filtered. -/
theorem driver_on_in_progress_trip_counted_available :
    (∃ t ∈ dbC9.trips, t.driver_id = some 5 ∧ t.trip_status = "in_progress") ∧
    available_drivers dbC9 = 1 := by decide

/-- C10: the records returned by accept, start and cancel carry
`trip_status` values `'accepted'`, `'in_progress'` and `'cancelled'`, none
of which belongs to the declared `TripStatus` Literal ('pending',
'completed', 'canceled', 'started', 'waiting', 'failed'), so
`TripResponse(**trip)` — whose `trip_status` field has type
`Optional[TripStatus]` — fails pydantic validation on these results. -/
theorem lifecycle_statuses_outside_declared_enum :
    ((accept_trip dbC10 1 7).1.map Trip.trip_status = some ("accepted")) ∧
    tripStatusLiterals.contains ("accepted") = false ∧
    ((start_trip dbC10 2 5 4).1.map Trip.trip_status = some ("in_progress")) ∧
    tripStatusLiterals.contains ("in_progress") = false ∧
    ((cancel_trip dbC10 3 5).1.map Trip.trip_status = some ("cancelled")) ∧
    tripStatusLiterals.contains ("cancelled") = false := by decide

/-! Helper lemmas shared by the claim theorems. -/

/-- A successful `accept_trip` presupposes that the checked trip row was
pending, driverless and not soft-deleted. -/
theorem accept_success_pre {db : DB} {tid did : Nat}
    (h : (accept_trip db tid did).1.isSome = true) :
    ∃ t ∈ db.trips, t.id = tid ∧ t.deleted = false ∧
      t.trip_status = "pending" ∧ t.driver_id = none := by
  unfold accept_trip at h
  split at h
  · next hc =>
      unfold accept_trip_check at hc
      split at hc
      · exact absurd hc (by simp)
      · next t hf =>
          unfold get_trip_by_id at hf
          have hmem := List.mem_of_find?_eq_some hf
          have hp := List.find?_some hf
          simp only [Bool.and_eq_true, beq_iff_eq, Bool.not_eq_true'] at hp hc
          exact ⟨t, hmem, hp.1, hp.2, hc.1, hc.2⟩
  · simp at h

/-- C7 amended: with the addressed user present, `create_transaction`
fails with `InsufficientFunds` exactly when the transaction type is
`withdraw` or `trip_payment` — for either type regardless of the amount's
sign — and the cached balance is below the absolute amount (and on that
failure nothing is written: the error branch carries no new state). -/
theorem insufficient_funds_characterization (db : DB) (td : TransactionCreate)
    (u : User) (hu : findUser db td.user_id = some u) :
    create_transaction db td = Except.error insufficientFunds ↔
      (td.type = "withdraw" ∨ td.type = "trip_payment") ∧
        u.wallet_balance < abs td.amount := by
  by_cases h : (td.type = "withdraw" ∨ td.type = "trip_payment") ∧
      u.wallet_balance < abs td.amount
  · simp [create_transaction, hu, h]
  · simp [create_transaction, hu, h]

/-- Witness for `insufficient_funds_characterization`: user 7 (balance 0)
and a withdraw of −5. -/
theorem insufficient_funds_characterization_witness :
    create_transaction dbC7 ⟨7, -5, "withdraw", none⟩ =
        Except.error insufficientFunds ↔
      (("withdraw" : String) = "withdraw" ∨
          ("withdraw" : String) = "trip_payment") ∧
        (0 : ℚ) < abs (-5 : ℚ) :=
  insufficient_funds_characterization dbC7 ⟨7, -5, "withdraw", none⟩
    ⟨7, 0, false⟩ (by decide)

/-- When `accept_trip_check` passed, the written table still holds a row
with the requested id (the UPDATE changes no id), so the RETURNING read of
`accept_trip` finds a row. -/
theorem accept_write_find {db : DB} {tid : Nat} (did : Nat)
    (hc : accept_trip_check db tid = true) :
    ((accept_trip_write db tid did).trips.find?
      fun t => t.id == tid).isSome = true := by
  unfold accept_trip_check at hc
  split at hc
  · exact absurd hc (by simp)
  · next t hf =>
      unfold get_trip_by_id at hf
      have hmem := List.mem_of_find?_eq_some hf
      have hp := List.find?_some hf
      simp only [Bool.and_eq_true, beq_iff_eq, Bool.not_eq_true'] at hp
      rw [List.find?_isSome]
      unfold accept_trip_write
      dsimp only
      refine ⟨_, List.mem_map_of_mem _ hmem, ?_⟩
      have hg : (t.id == tid) = true := by simp [hp.1]
      simp [hg, hp.1]

/-- A guarded row rewrite whose guard holds nowhere is the identity. -/
theorem map_guard_id {α : Type} (l : List α) (g : α → Bool) (f : α → α)
    (h : ∀ t ∈ l, g t = false) :
    (l.map fun t => if g t then f t else t) = l := by
  induction l with
  | nil => rfl
  | cons x xs ih =>
      rw [List.map_cons, h x (List.mem_cons_self x xs)]
      simp only [Bool.false_eq_true, if_false]
      rw [ih fun t ht => h t (List.mem_cons_of_mem x ht)]

/-- C3 amended: the two assignment paths enforce different and weaker
conditions than claimed.  `accept_trip` succeeds **exactly** when the
non-deleted lookup of the trip id returns a pending, driverless row — it
checks nothing about the driver (neither approval nor soft-delete nor
other held trips) — and when it fails it returns the store unchanged.
`assign_driver_to_trip` returns `ok` only if the driver is approved, not
soft-deleted and holds no non-deleted trip with status in
{pending, started, waiting} — not the claimed
{pending, accepted, in_progress, waiting}; its precondition failures raise
before any write (the error outcome carries no new state by construction),
and when its guarded UPDATE matches no row (result `false`) the trips
table is unchanged. -/
theorem assignment_success_conditions (db : DB) (tid did : Nat) :
    ((accept_trip db tid did).1.isSome = true ↔
      ∃ t, get_trip_by_id db tid = some t ∧
        t.trip_status = "pending" ∧ t.driver_id = none) ∧
    ((accept_trip db tid did).1.isSome = false →
      (accept_trip db tid did).2 = db) ∧
    (∀ b db', assign_driver_to_trip db tid did = Except.ok (b, db') →
      (∃ d ∈ db.drivers, d.user_id = did ∧ d.approval_status = "approved" ∧
        d.deleted = false) ∧
      (∀ t ∈ db.trips, t.driver_id = some did → t.deleted = false →
        t.trip_status ≠ "pending" ∧ t.trip_status ≠ "started" ∧
          t.trip_status ≠ "waiting") ∧
      (b = false → db'.trips = db.trips)) := by
  refine ⟨⟨?_, ?_⟩, ?_, ?_⟩
  · intro h
    unfold accept_trip at h
    split at h
    · next hc =>
        unfold accept_trip_check at hc
        split at hc
        · exact absurd hc (by simp)
        · next t hf =>
            simp only [Bool.and_eq_true, beq_iff_eq] at hc
            exact ⟨t, hf, hc.1, hc.2⟩
    · simp at h
  · rintro ⟨t, hf, hstat, hdrv⟩
    have hc : accept_trip_check db tid = true := by
      unfold accept_trip_check
      rw [hf]
      simp [hstat, hdrv]
    unfold accept_trip
    rw [if_pos hc]
    exact accept_write_find did hc
  · intro h
    by_cases hc : accept_trip_check db tid = true
    · exfalso
      unfold accept_trip at h
      rw [if_pos hc] at h
      dsimp only at h
      rw [accept_write_find did hc] at h
      cases h
    · unfold accept_trip
      rw [if_neg hc]
  · intro b db' hok
    unfold assign_driver_to_trip at hok
    cases hf : db.drivers.find? (fun d =>
        d.user_id == did && d.approval_status == "approved" && !d.deleted) with
    | none => rw [hf] at hok; cases hok
    | some d =>
      rw [hf] at hok
      by_cases hbusy : db.trips.any (fun t =>
          t.driver_id == some did &&
            (t.trip_status == "pending" || t.trip_status == "started" ||
              t.trip_status == "waiting") && !t.deleted) = true
      · rw [if_pos hbusy] at hok; cases hok
      · rw [if_neg hbusy] at hok
        dsimp only at hok
        simp only [Except.ok.injEq, Prod.mk.injEq] at hok
        obtain ⟨hb, hdb⟩ := hok
        refine ⟨?_, ?_, ?_⟩
        · have hmem := List.mem_of_find?_eq_some hf
          have hp := List.find?_some hf
          simp only [Bool.and_eq_true, beq_iff_eq, Bool.not_eq_true'] at hp
          exact ⟨d, hmem, hp.1.1, hp.1.2, hp.2⟩
        · intro t ht hdrv hdel
          rw [List.any_eq_true] at hbusy
          push_neg at hbusy
          have hpt := hbusy t ht
          simp [hdrv, hdel] at hpt
          exact ⟨hpt.1.1, hpt.1.2, hpt.2⟩
        · intro hbfalse
          have hany : db.trips.any (fun t =>
              t.id == tid && t.trip_status == "pending" && !t.deleted) =
                false := by
            rw [hb]
            exact hbfalse
          rw [List.any_eq_false] at hany
          rw [← hdb]
          dsimp only
          apply map_guard_id
          intro t ht
          simpa using hany t ht

/-- A pending driverless trip (id 1) and an approved idle driver (user 5). -/
def dbW3 : DB :=
  ⟨[⟨1, 9, none, "pending", none, none, none, false⟩],
    [⟨5, "approved", false⟩], [], [], [], 2, 10, 20⟩

/-- Witness for `assignment_success_conditions`: on `dbW3` the accept
equivalence is exercised forward at the succeeding trip 1, the
unchanged-on-failure clause at the absent trip 2, and the assign
characterization at the `ok true` run for trip 1 / driver 5. -/
theorem assignment_success_conditions_witness :
    (∃ t, get_trip_by_id dbW3 1 = some t ∧ t.trip_status = "pending" ∧
      t.driver_id = none) ∧
    (accept_trip dbW3 2 5).2 = dbW3 ∧
    (∃ d ∈ dbW3.drivers, d.user_id = 5 ∧ d.approval_status = "approved" ∧
      d.deleted = false) :=
  ⟨(assignment_success_conditions dbW3 1 5).1.mp (by decide),
    (assignment_success_conditions dbW3 2 5).2.1 (by decide),
    ((assignment_success_conditions dbW3 1 5).2.2 true
      ⟨[⟨1, 9, some 5, "pending", none, none, none, false⟩],
        [⟨5, "approved", false⟩], [], [], [], 2, 10, 20⟩ (by decide)).1⟩

/-- A guarded row rewrite that does not touch `driver_id` leaves the
`driver_id` column of the table unchanged. -/
theorem map_driver_preserved (l : List Trip) (g : Trip → Bool) (f : Trip → Trip)
    (hf : ∀ t, (f t).driver_id = t.driver_id) :
    (l.map fun t => if g t then f t else t).map Trip.driver_id =
      l.map Trip.driver_id := by
  rw [List.map_map]
  apply List.map_congr_left
  intro t ht
  by_cases h : g t <;> simp [h, hf]

/-- C5 amended: the null-to-non-null-once discipline is enforced on the
guarded lifecycle transitions — `start_trip`, `complete_trip` and
`cancel_trip` never alter any trip's `driver_id`, and `accept_trip`
succeeds only when the trip's `driver_id` is still null — but it does not
hold program-wide: `update_trip` overwrites any trip's driver and
`assign_driver_to_trip` (whose UPDATE guard lacks `driver_id IS NULL`) can
overwrite the driver of a pending trip that already has one. -/
theorem driver_id_stability (db : DB) (tid did now : Nat) :
    ((start_trip db tid did now).2.trips.map Trip.driver_id =
      db.trips.map Trip.driver_id) ∧
    ((complete_trip db tid did now).2.trips.map Trip.driver_id =
      db.trips.map Trip.driver_id) ∧
    ((cancel_trip db tid did).2.trips.map Trip.driver_id =
      db.trips.map Trip.driver_id) ∧
    ((accept_trip db tid did).1.isSome = true →
      ∃ t ∈ db.trips, t.id = tid ∧ t.driver_id = none) := by
  refine ⟨?_, ?_, ?_, ?_⟩
  · unfold start_trip
    dsimp only
    split
    · rfl
    · exact map_driver_preserved _ _ _ (fun t => rfl)
  · unfold complete_trip
    dsimp only
    split
    · rfl
    · exact map_driver_preserved _ _ _ (fun t => rfl)
  · unfold cancel_trip
    dsimp only
    split
    · rfl
    · exact map_driver_preserved _ _ _ (fun t => rfl)
  · intro h
    obtain ⟨t, hmem, hid, _, _, hdrv⟩ := accept_success_pre h
    exact ⟨t, hmem, hid, hdrv⟩

/-- Witness for `driver_id_stability`: exercised on `dbC4` (one pending
driverless trip) where `accept_trip` succeeds. -/
theorem driver_id_stability_witness :
    ((start_trip dbC4 1 5 7).2.trips.map Trip.driver_id =
      dbC4.trips.map Trip.driver_id) ∧
    (∃ t ∈ dbC4.trips, t.id = 1 ∧ t.driver_id = none) :=
  ⟨(driver_id_stability dbC4 1 5 7).1,
    (driver_id_stability dbC4 1 5 7).2.2.2 (by decide)⟩

/-- Appending one ledger row adds its amount to the sum of exactly its
user. -/
theorem txnSum_append (l : List Txn) (t : Txn) (uid : Nat) :
    txnSum (l ++ [t]) uid =
      txnSum l uid + (if t.user_id = uid then t.amount else 0) := by
  unfold txnSum
  rw [List.filter_append]
  by_cases h : t.user_id = uid
  · simp [h]
  · simp [h]

/-- With unique ids, two table rows with the same id are the same row. -/
theorem user_row_unique {l : List User} (h : (l.map User.id).Nodup)
    {a b : User} (ha : a ∈ l) (hb : b ∈ l) (hid : a.id = b.id) : a = b :=
  List.inj_on_of_nodup_map h ha hb hid

/-- What a successful `create_transaction` did to the store: appended
exactly one ledger row (with the submitted fields and the next serial id)
and rewrote the addressed user's cached balance; every other table and the
payment counter are untouched. -/
theorem create_transaction_ok_spec {db : DB} {td : TransactionCreate}
    {tx : Txn} {db' : DB}
    (h : create_transaction db td = Except.ok (tx, db')) :
    tx = ⟨db.nextTxnId, td.user_id, td.amount, td.type, td.payment_id⟩ ∧
    db'.transactions = db.transactions ++ [tx] ∧
    db'.payments = db.payments ∧
    db'.trips = db.trips ∧
    db'.nextPaymentId = db.nextPaymentId ∧
    db'.nextTxnId = db.nextTxnId + 1 ∧
    ∃ u, findUser db td.user_id = some u ∧
      db'.users = db.users.map fun v =>
        if v.id == td.user_id then
          { v with wallet_balance := u.wallet_balance + td.amount }
        else v := by
  unfold create_transaction at h
  split at h
  · cases h
  · next u hf =>
      split at h
      · cases h
      · simp only [Except.ok.injEq, Prod.mk.injEq] at h
        obtain ⟨rfl, rfl⟩ := h
        exact ⟨rfl, rfl, rfl, rfl, rfl, rfl, u, hf, rfl⟩

/-- One successful `create_transaction` step preserves the wallet/ledger
invariant `Balanced`. -/
theorem create_transaction_preserves_balanced {db : DB}
    {td : TransactionCreate} {tx : Txn} {db' : DB} (hb : Balanced db)
    (h : create_transaction db td = Except.ok (tx, db')) : Balanced db' := by
  obtain ⟨htx, htr, _, _, _, _, u, hu, husers⟩ := create_transaction_ok_spec h
  obtain ⟨hnodup, hbal⟩ := hb
  have humem : u ∈ db.users := List.mem_of_find?_eq_some hu
  have huid : u.id = td.user_id := by
    have := List.find?_some hu
    simpa using this
  have hids : db'.users.map User.id = db.users.map User.id := by
    rw [husers, List.map_map]
    apply List.map_congr_left
    intro v hv
    by_cases hvid : (v.id == td.user_id) = true <;> simp [hvid, Function.comp]
  refine ⟨hids ▸ hnodup, ?_⟩
  intro w hw
  rw [husers] at hw
  obtain ⟨v, hv, rfl⟩ := List.mem_map.mp hw
  rw [htr, htx, txnSum_append]
  by_cases hvid : v.id = td.user_id
  · have hveq : v = u := user_row_unique hnodup hv humem (huid ▸ hvid)
    subst hveq
    simp [hvid, hbal v hv]
  · have hvid2 : td.user_id ≠ v.id := fun hh => hvid hh.symm
    simp [hvid, hvid2, hbal v hv]

/-- Under `Balanced`, `get_wallet_balance` returns exactly the ledger sum
for every existing, non-deleted user. -/
theorem balanced_get_wallet {db : DB} (hb : Balanced db) :
    ∀ u ∈ db.users, u.deleted = false →
      get_wallet_balance db u.id = some (txnSum db.transactions u.id) := by
  obtain ⟨hnodup, hbal⟩ := hb
  intro u hu hdel
  unfold get_wallet_balance
  cases hf : db.users.find? (fun v => v.id == u.id && !v.deleted) with
  | none =>
    have := List.find?_eq_none.mp hf u hu
    simp [hdel] at this
  | some w =>
    have hwmem := List.mem_of_find?_eq_some hf
    have hwp := List.find?_some hf
    simp only [Bool.and_eq_true, beq_iff_eq, Bool.not_eq_true'] at hwp
    have hweq : w = u := user_row_unique hnodup hwmem hu hwp.1
    subst hweq
    simp [hbal w hwmem]

/-- `postAll` peels off its first call. -/
theorem postAll_cons (db : DB) (td : TransactionCreate)
    (tds : List TransactionCreate) :
    postAll db (td :: tds) =
      postAll
        (match create_transaction db td with
          | .ok (_, s') => s'
          | .error _ => db)
        tds := by
  unfold postAll
  rw [List.foldl_cons]

/-- Every sequence of ledger posts preserves `Balanced`. -/
theorem postAll_preserves_balanced {db : DB}
    {tds : List TransactionCreate} (hb : Balanced db) :
    Balanced (postAll db tds) := by
  induction tds generalizing db with
  | nil => simpa [postAll] using hb
  | cons td tds ih =>
    rw [postAll_cons]
    cases h : create_transaction db td with
    | ok p =>
      obtain ⟨tx, db'⟩ := p
      exact ih (create_transaction_preserves_balanced hb h)
    | error e => exact ih hb

/-- C6: starting from any store satisfying the wallet/ledger invariant
(unique user ids, cached balance = ledger sum — true of a fresh store,
since users are created with `wallet_balance = 0` and no ledger rows), any
sequence of `create_transaction` posts preserves the invariant, and
`get_wallet_balance` then returns exactly the sum of the committed ledger
rows for every non-deleted user.  Each post writes its ledger row and the
cached balance inside one BEGIN/COMMIT unit — modelled as a single atomic
step, a failed one leaving the store untouched — so no state with one and
not the other is ever observable. -/
theorem wallet_balance_matches_ledger (db : DB)
    (tds : List TransactionCreate) (hb : Balanced db) :
    Balanced (postAll db tds) ∧
      ∀ u ∈ (postAll db tds).users, u.deleted = false →
        get_wallet_balance (postAll db tds) u.id =
          some (txnSum (postAll db tds).transactions u.id) :=
  ⟨postAll_preserves_balanced hb,
    balanced_get_wallet (postAll_preserves_balanced hb)⟩

/-- A fresh one-user store for the C6 witness. -/
def dbC6 : DB := ⟨[], [], [⟨1, 0, false⟩], [], [], 1, 10, 20⟩

/-- Witness for `wallet_balance_matches_ledger`: a deposit of 100 then a
withdraw of 30 on a fresh account. -/
theorem wallet_balance_matches_ledger_witness :
    Balanced (postAll dbC6 [⟨1, 100, "deposit", none⟩,
      ⟨1, -30, "withdraw", none⟩]) ∧
      ∀ u ∈ (postAll dbC6 [⟨1, 100, "deposit", none⟩,
          ⟨1, -30, "withdraw", none⟩]).users, u.deleted = false →
        get_wallet_balance (postAll dbC6 [⟨1, 100, "deposit", none⟩,
            ⟨1, -30, "withdraw", none⟩]) u.id =
          some (txnSum (postAll dbC6 [⟨1, 100, "deposit", none⟩,
            ⟨1, -30, "withdraw", none⟩]).transactions u.id) :=
  wallet_balance_matches_ledger dbC6
    [⟨1, 100, "deposit", none⟩, ⟨1, -30, "withdraw", none⟩]
    (by constructor
        · decide
        · decide)

/-- `setTripPayment` only touches the `trips` table. -/
theorem setTripPayment_transactions (db : DB) (tid pid : Nat) :
    (setTripPayment db tid pid).transactions = db.transactions := rfl

/-- `update_payment_status` only touches the `payments` table. -/
theorem update_payment_status_transactions (db : DB) (pid : Nat) (s : String) :
    (update_payment_status db pid s).transactions = db.transactions := rfl

/-- The settlement tail writes no ledger rows. -/
theorem settleFinish_transactions (db : DB) (tid : Nat) (p : Payment)
    (a da : ℚ) (b : Bool) :
    (settleFinish db tid p a da b).2.transactions = db.transactions := rfl

/-- C8: a successful settlement of gross amount `g` for a trip with an
assigned driver `d` (nonzero, per the Python truthiness test) appends
exactly two ledger rows, and the rows referencing the created payment
(`db.nextPaymentId`, fresh by hypothesis) are exactly the **trip's
passenger's** debit row of `-g` and the **assigned driver's** credit row
of `g * 0.85`, both of type `trip_payment` and linked to the payment — the
15% platform fee is never a third row. -/
theorem settlement_creates_exactly_two_ledger_rows
    (db : DB) (tid : Nat) (g : ℚ) (trip : Trip) (d : Nat) (r : SettleResult)
    (htrip : findTrip db tid = some trip) (hd : trip.driver_id = some d)
    (hd0 : d ≠ 0)
    (hfresh : ∀ tx ∈ db.transactions, tx.payment_id ≠ some db.nextPaymentId)
    (hrun : (process_trip_payment db tid g).1 = Except.ok r) :
    ((process_trip_payment db tid g).2.transactions.filter
        (fun tx => tx.payment_id == some db.nextPaymentId)) =
      [⟨db.nextTxnId, trip.passenger_id, -g, "trip_payment",
          some db.nextPaymentId⟩,
        ⟨db.nextTxnId + 1, d, g * (85 / 100 : ℚ), "trip_payment",
          some db.nextPaymentId⟩] ∧
    (process_trip_payment db tid g).2.transactions.length =
      db.transactions.length + 2 := by
  unfold process_trip_payment at hrun ⊢
  rw [htrip] at hrun ⊢
  dsimp only [create_payment] at hrun ⊢
  cases h1 : create_transaction
      { db with
        payments := db.payments ++
          [⟨db.nextPaymentId, g, "electronic", "pending", false⟩]
        nextPaymentId := db.nextPaymentId + 1 }
      ⟨trip.passenger_id, -g, "trip_payment", some db.nextPaymentId⟩ with
  | error e => rw [h1] at hrun; simp at hrun
  | ok p =>
    obtain ⟨tx1, db2⟩ := p
    rw [h1] at hrun
    dsimp only at hrun
    dsimp only
    rw [hd] at hrun ⊢
    dsimp only at hrun ⊢
    rw [if_pos hd0] at hrun ⊢
    cases h2 : create_transaction db2
        ⟨d, g * (85 / 100 : ℚ), "trip_payment", some db.nextPaymentId⟩ with
    | error e => rw [h2] at hrun; simp at hrun
    | ok q =>
      obtain ⟨tx2, db3⟩ := q
      rw [h2] at hrun
      dsimp only at hrun
      dsimp only
      obtain ⟨htx1, htr1, -, -, -, hnx1, -⟩ := create_transaction_ok_spec h1
      obtain ⟨htx2, htr2, -, -, -, -, -⟩ := create_transaction_ok_spec h2
      rw [settleFinish_transactions, htr2, htr1]
      have hold : db.transactions.filter
          (fun tx => tx.payment_id == some db.nextPaymentId) = [] := by
        rw [List.filter_eq_nil_iff]
        intro tx htx
        simp [hfresh tx htx]
      constructor
      · rw [List.filter_append, List.filter_append, hold]
        simp [htx1, htx2, hnx1]
      · simp [htx1, htx2]

/-- One in-progress trip (passenger 1, driver 2), the passenger holding
500 and the driver 1000 (enough to pass the sign-blind balance check on
the credit), an empty ledger. -/
def dbC8 : DB :=
  ⟨[⟨1, 1, some 2, "in_progress", none, some 3, none, false⟩], [],
    [⟨1, 500, false⟩, ⟨2, 1000, false⟩], [], [], 2, 10, 20⟩

/-- Witness for `settlement_creates_exactly_two_ledger_rows`: settling
trip 1 of `dbC8` with gross 500 yields exactly passenger 1's −500 row and
driver 2's +425 row. -/
theorem settlement_creates_exactly_two_ledger_rows_witness :
    ((process_trip_payment dbC8 1 500).2.transactions.filter
        (fun tx => tx.payment_id == some dbC8.nextPaymentId)) =
      [⟨dbC8.nextTxnId, 1, -500, "trip_payment", some dbC8.nextPaymentId⟩,
        ⟨dbC8.nextTxnId + 1, 2, (500 : ℚ) * (85 / 100 : ℚ), "trip_payment",
          some dbC8.nextPaymentId⟩] ∧
    (process_trip_payment dbC8 1 500).2.transactions.length =
      dbC8.transactions.length + 2 :=
  settlement_creates_exactly_two_ledger_rows dbC8 1 500
    ⟨1, 1, some 2, "in_progress", none, some 3, none, false⟩ 2
    ⟨⟨10, 500, "electronic", "pending", false⟩, -500, 425, 75⟩
    (by decide) (by decide) (by decide) (by decide)
    (by norm_num [process_trip_payment, findTrip, dbC8, create_payment,
      create_transaction, findUser, settleFinish, setTripPayment,
      update_payment_status, insufficientFunds, List.find?,
      show ((1 : Nat) == 2) = false from rfl,
      show ((2 : Nat) == 2) = true from rfl,
      show ((1 : Nat) == 1) = true from rfl,
      show ((2 : Nat) == 1) = false from rfl])

end OnlineTaxi
